import Mathlib

/-!
Verification of the erosion PDF grid-layout and pagination engine
(`src/erosion/pdf/__init__.py`, class `eroPDF`).

The embedding mirrors the Python source:
* numbers are `Int`; Python floor division `//` is `Int.fdiv` and Python
  `%` is `Int.fmod` (both follow the sign of the divisor, as Python does);
* a Python dict of field attributes becomes a structure of `Option` fields
  (`none` = key absent);
* canvas and AcroForm calls become an `Event` trace;
* Python exceptions (`KeyError`, `ZeroDivisionError`, `NotImplementedError`)
  become an `Option RenderError` outcome threaded through the render pass.
-/

namespace Erosion

/-- The `layout` dict of the rendered template: geometry overrides, each key
optional (`self.layout.get(key, default)` in the source). -/
structure Layout where
  margin_x : Option Int := none
  margin_y : Option Int := none
  row_height : Option Int := none
  column_width : Option Int := none
deriving DecidableEq

/-- The per-document state fixed before the field loop: the layout dict,
`self.page_size[1]`, and the computed `self.rows_per_page`. -/
structure Config where
  layout : Layout
  page_height : Int
  rows_per_page : Int
deriving DecidableEq

/-- `eroPDF.render` lines 32-36: `rows_per_page = (page_height - 2*margin_y) // row_height`
with Python floor division; `none` models the `ZeroDivisionError` Python raises
when `row_height` is 0.  No validation of the result is performed by the source. -/
def compute_rows_per_page (page_height : Int) (layout : Layout) : Option Int :=
  let margin_y := layout.margin_y.getD 50
  let row_height := layout.row_height.getD 30
  let usable_height := page_height - 2 * margin_y
  if row_height = 0 then none
  else some (Int.fdiv usable_height row_height)

/-- The keys of a dict that `eroPDF._resolve_coords` reads.  Both top-level
fields and radio option dicts (and the endpoint dicts built by `_draw_line`)
are projected onto this record. -/
structure CoordSpec where
  x : Option Int := none
  y : Option Int := none
  width : Option Int := none
  col : Option Int := none
  row : Option Int := none
  col_span : Option Int := none
deriving DecidableEq

/-- An option dict of a radio field (element of `field["options"]`). -/
structure RadioOption where
  x : Option Int := none
  y : Option Int := none
  width : Option Int := none
  col : Option Int := none
  row : Option Int := none
  col_span : Option Int := none
  value : Option String := none
  selected : Option Bool := none
  size : Option Int := none
deriving DecidableEq

/-- A field dict.  `ftype` is the dict key `"type"`.  All keys are optional,
exactly as for a Python dict; `options` is `field.get("options", [])`. -/
structure Field where
  ftype : Option String := none
  x : Option Int := none
  y : Option Int := none
  width : Option Int := none
  col : Option Int := none
  row : Option Int := none
  col_span : Option Int := none
  name : Option String := none
  label : Option String := none
  value : Option String := none
  text : Option String := none
  font_size : Option Int := none
  height : Option Int := none
  size : Option Int := none
  checked : Option Bool := none
  options : List RadioOption := []
  col1 : Option Int := none
  row1 : Option Int := none
  col2 : Option Int := none
  row2 : Option Int := none
deriving DecidableEq

def Field.coords (f : Field) : CoordSpec :=
  ⟨f.x, f.y, f.width, f.col, f.row, f.col_span⟩

def RadioOption.coords (o : RadioOption) : CoordSpec :=
  ⟨o.x, o.y, o.width, o.col, o.row, o.col_span⟩

/-- Canvas / AcroForm side effects emitted during `eroPDF.save`. -/
inductive Event where
  /-- `showPage` + fresh `acroForm` + `_draw_debug_page_number`, emitted by the
  page-break branch; the payload is the new `page_number`. -/
  | pageBreak (new_page : Int)
  /-- `canvas.drawString` preceded by `setFont` at the given size (`_draw_text`). -/
  | drawText (x y font_size : Int) (text : String)
  /-- `form.textfield` (`_draw_fillable`). -/
  | drawTextField (name tooltip : String) (x y width height : Int) (value : String)
  /-- `form.checkbox` (`_draw_checkbox`). -/
  | drawCheckbox (name tooltip : String) (x y size : Int) (checked : Bool)
  /-- `form.radio` for one option (`_draw_radio`). -/
  | drawRadio (name tooltip value : String) (selected : Bool) (x y size : Int)
  /-- `canvas.line` preceded by `setLineWidth` (`_draw_line`). -/
  | drawLine (x1 y1 x2 y2 line_width : Int)
  /-- The trailing `canvas.showPage()` of `save`. -/
  | showPage
  /-- `canvas.save()`. -/
  | saveDoc
deriving DecidableEq

/-- Python exceptions that can escape the field loop. -/
inductive RenderError where
  /-- `NotImplementedError` from `_draw_field` on an unrecognized `"type"`. -/
  | unsupportedType (t : Option String)
  /-- `KeyError` from a `field[key]` subscript on a missing key. -/
  | keyError (key : String)
  /-- `ZeroDivisionError` from `row % rows_per_page` when `rows_per_page` is 0. -/
  | zeroDivision
deriving DecidableEq

/-- `eroPDF._needs_page_break` line 58-59: `row >= (page_number + 1) * rows_per_page`. -/
def needs_page_break (rows_per_page page_number row : Int) : Bool :=
  decide ((page_number + 1) * rows_per_page ≤ row)

/-- `eroPDF._resolve_coords` lines 61-78.  The explicit branch fires exactly when
both `"x"` and `"y"` are present.  The grid branch computes
`local_row = row % rows_per_page` with Python semantics (`Int.fmod`); `none`
models the `ZeroDivisionError` raised when `rows_per_page` is 0.  The current
`page_number` is not an input of this function. -/
def resolve_coords (cfg : Config) (f : CoordSpec) : Option (Int × Int × Int) :=
  match f.x, f.y with
  | some x, some y => some (x, y, f.width.getD 100)
  | _, _ =>
    if cfg.rows_per_page = 0 then none
    else
      let col := f.col.getD 0
      let row := f.row.getD 0
      let col_span := f.col_span.getD 1
      let margin_x := cfg.layout.margin_x.getD 50
      let margin_y := cfg.layout.margin_y.getD 50
      let row_height := cfg.layout.row_height.getD 30
      let col_width := cfg.layout.column_width.getD 120
      let local_row := Int.fmod row cfg.rows_per_page
      some (margin_x + col * col_width,
            cfg.page_height - margin_y - local_row * row_height,
            col_span * col_width)

/-- `eroPDF._draw_text` lines 100-106. -/
def draw_text (cfg : Config) (f : Field) : List Event × Option RenderError :=
  match resolve_coords cfg f.coords with
  | none => ([], some RenderError.zeroDivision)
  | some (x, y, _) =>
      ([Event.drawText x y (f.font_size.getD 10) (f.text.getD "")], none)

/-- `eroPDF._draw_fillable` lines 108-121: coordinates are resolved first, then
the `field["name"]` subscript raises `KeyError` when the key is missing. -/
def draw_fillable (cfg : Config) (f : Field) : List Event × Option RenderError :=
  match resolve_coords cfg f.coords with
  | none => ([], some RenderError.zeroDivision)
  | some (x, y, w) =>
    match f.name with
    | none => ([], some (RenderError.keyError "name"))
    | some nm =>
        ([Event.drawTextField nm (f.label.getD "") x y w (f.height.getD 20)
            (f.value.getD "")], none)

/-- `eroPDF._draw_checkbox` lines 123-134. -/
def draw_checkbox (cfg : Config) (f : Field) : List Event × Option RenderError :=
  match resolve_coords cfg f.coords with
  | none => ([], some RenderError.zeroDivision)
  | some (x, y, _) =>
    match f.name with
    | none => ([], some (RenderError.keyError "name"))
    | some nm =>
        ([Event.drawCheckbox nm (f.label.getD "") x y (f.size.getD 12)
            (f.checked.getD false)], none)

/-- One iteration of the loop in `eroPDF._draw_radio` lines 137-149: the
option's coordinates are resolved first; in the `form.radio(...)` call the
`field["name"]` subscript is evaluated before the `option["value"]` subscript. -/
def draw_radio_option (cfg : Config) (name : Option String) (tooltip : String)
    (o : RadioOption) : List Event × Option RenderError :=
  match resolve_coords cfg o.coords with
  | none => ([], some RenderError.zeroDivision)
  | some (x, y, _) =>
    match name with
    | none => ([], some (RenderError.keyError "name"))
    | some nm =>
      match o.value with
      | none => ([], some (RenderError.keyError "value"))
      | some v =>
          ([Event.drawRadio nm tooltip v (o.selected.getD false) x y
              (o.size.getD 12)], none)

/-- The `for option in field.get("options", [])` loop of `_draw_radio`:
options already drawn stay drawn when a later option raises. -/
def draw_radio_options (cfg : Config) (name : Option String) (tooltip : String) :
    List RadioOption → List Event × Option RenderError
  | [] => ([], none)
  | o :: os =>
    match draw_radio_option cfg name tooltip o with
    | (evs, some e) => (evs, some e)
    | (evs, none) =>
        let rest := draw_radio_options cfg name tooltip os
        (evs ++ rest.1, rest.2)

/-- `eroPDF._draw_radio` lines 136-149. -/
def draw_radio (cfg : Config) (f : Field) : List Event × Option RenderError :=
  draw_radio_options cfg f.name (f.label.getD "") f.options

/-- `eroPDF._draw_line` lines 151-155: the endpoint dicts
`{"col": field["col1"], "row": field["row1"]}` subscript the field, raising
`KeyError` on a missing key before resolution. -/
def draw_line (cfg : Config) (f : Field) : List Event × Option RenderError :=
  match f.col1 with
  | none => ([], some (RenderError.keyError "col1"))
  | some c1 =>
    match f.row1 with
    | none => ([], some (RenderError.keyError "row1"))
    | some r1 =>
      match resolve_coords cfg { col := some c1, row := some r1 } with
      | none => ([], some RenderError.zeroDivision)
      | some (x1, y1, _) =>
        match f.col2 with
        | none => ([], some (RenderError.keyError "col2"))
        | some c2 =>
          match f.row2 with
          | none => ([], some (RenderError.keyError "row2"))
          | some r2 =>
            match resolve_coords cfg { col := some c2, row := some r2 } with
            | none => ([], some RenderError.zeroDivision)
            | some (x2, y2, _) =>
                ([Event.drawLine x1 y1 x2 y2 (f.width.getD 1)], none)

/-- `eroPDF._draw_field` lines 84-98: dispatch on the `"type"` key; any other
value (including a missing key, `None`) raises `NotImplementedError`. -/
def draw_field (cfg : Config) (f : Field) : List Event × Option RenderError :=
  match f.ftype with
  | some "text" => draw_text cfg f
  | some "fillable" => draw_fillable cfg f
  | some "checkbox" => draw_checkbox cfg f
  | some "radio" => draw_radio cfg f
  | some "line" => draw_line cfg f
  | t => ([], some (RenderError.unsupportedType t))

/-- One iteration of the field loop in `eroPDF.save` lines 45-53: read
`field.get("row", 0)`, run the page-break check, then draw the field.  Returns
the emitted events, the `page_number` after the iteration (the increment
happens before drawing, so it survives a drawing error), and the error if the
iteration raised. -/
def saveStep (cfg : Config) (page_number : Int) (f : Field) :
    List Event × Int × Option RenderError :=
  if needs_page_break cfg.rows_per_page page_number (f.row.getD 0) then
    (Event.pageBreak (page_number + 1) :: (draw_field cfg f).1,
     page_number + 1, (draw_field cfg f).2)
  else
    ((draw_field cfg f).1, page_number, (draw_field cfg f).2)

/-- The field loop of `eroPDF.save`: fields in source order, stopping at the
first error (the Python exception propagates out of the loop). -/
def runFields (cfg : Config) : Int → List Field → List Event × Int × Option RenderError
  | pn, [] => ([], pn, none)
  | pn, f :: fs =>
    match saveStep cfg pn f with
    | (evs, pn', some e) => (evs, pn', some e)
    | (evs, pn', none) =>
        let rest := runFields cfg pn' fs
        (evs ++ rest.1, rest.2.1, rest.2.2)

/-- `eroPDF.save` lines 40-56: `page_number` starts at 0, the field loop runs,
and only when it finishes without raising do the trailing `showPage()` and
`save()` calls happen. -/
def save (cfg : Config) (fields : List Field) : List Event × Option RenderError :=
  match runFields cfg 0 fields with
  | (evs, _, some e) => (evs, some e)
  | (evs, _, none) => (evs ++ [Event.showPage, Event.saveDoc], none)

/-- Number of mid-pass page-break events in a trace. -/
def countBreaks (evs : List Event) : Nat :=
  evs.countP (fun e => match e with | Event.pageBreak _ => true | _ => false)

/-! ### Helper lemmas shared by several theorems -/

/-- When `"x"` and `"y"` are not both present, `resolve_coords` takes the grid
branch and returns the grid formula (for a nonzero `rows_per_page`). -/
lemma resolve_coords_grid_eq (cfg : Config) (f : CoordSpec)
    (hxy : f.x = none ∨ f.y = none) (h0 : cfg.rows_per_page ≠ 0) :
    resolve_coords cfg f =
      some (cfg.layout.margin_x.getD 50 + f.col.getD 0 * cfg.layout.column_width.getD 120,
            cfg.page_height - cfg.layout.margin_y.getD 50 -
              Int.fmod (f.row.getD 0) cfg.rows_per_page * cfg.layout.row_height.getD 30,
            f.col_span.getD 1 * cfg.layout.column_width.getD 120) := by
  obtain ⟨x, y, w, c, r, s⟩ := f
  unfold resolve_coords
  rcases hxy with h | h <;> simp_all

/-- For a nonzero `rows_per_page`, coordinate resolution never fails. -/
lemma resolve_coords_isSome (cfg : Config) (f : CoordSpec)
    (h0 : cfg.rows_per_page ≠ 0) : (resolve_coords cfg f).isSome := by
  obtain ⟨x, y, w, c, r, s⟩ := f
  unfold resolve_coords
  cases x <;> cases y <;> simp_all

/-- Unfolding lemma for one iteration of the field loop. -/
lemma runFields_cons (cfg : Config) (pn : Int) (f : Field) (fs : List Field) :
    runFields cfg pn (f :: fs) =
      if (saveStep cfg pn f).2.2 = none then
        ((saveStep cfg pn f).1 ++ (runFields cfg (saveStep cfg pn f).2.1 fs).1,
         (runFields cfg (saveStep cfg pn f).2.1 fs).2.1,
         (runFields cfg (saveStep cfg pn f).2.1 fs).2.2)
      else ((saveStep cfg pn f).1, (saveStep cfg pn f).2.1, (saveStep cfg pn f).2.2) := by
  rcases hs : saveStep cfg pn f with ⟨evs, pn', err⟩
  cases err <;> simp [runFields, hs]

/-- One loop iteration leaves `page_number` unchanged or adds exactly one. -/
lemma saveStep_pn (cfg : Config) (pn : Int) (f : Field) :
    (saveStep cfg pn f).2.1 = pn + 1 ∨ (saveStep cfg pn f).2.1 = pn := by
  unfold saveStep
  split <;> simp

lemma saveStep_pn_le (cfg : Config) (pn : Int) (f : Field) :
    pn ≤ (saveStep cfg pn f).2.1 := by
  rcases saveStep_pn cfg pn f with h | h <;> omega

/-- When the transition condition holds, the iteration advances the page. -/
lemma saveStep_breaks (cfg : Config) (pn : Int) (f : Field)
    (h : (pn + 1) * cfg.rows_per_page ≤ f.row.getD 0) :
    (saveStep cfg pn f).2.1 = pn + 1 := by
  unfold saveStep needs_page_break
  simp [h]

/-- `page_number` never decreases across the loop. -/
lemma runFields_pn_le (cfg : Config) (pn : Int) (fs : List Field) :
    pn ≤ (runFields cfg pn fs).2.1 := by
  induction fs generalizing pn with
  | nil => simp [runFields]
  | cons f fs ih =>
    have h1 := saveStep_pn_le cfg pn f
    have h2 := ih (saveStep cfg pn f).2.1
    rw [runFields_cons]
    split <;> simp <;> omega

lemma countBreaks_nil : countBreaks [] = 0 := rfl

lemma countBreaks_append (a b : List Event) :
    countBreaks (a ++ b) = countBreaks a + countBreaks b :=
  List.countP_append ..

lemma countBreaks_draw_radio_option (cfg : Config) (nm : Option String)
    (tt : String) (o : RadioOption) :
    countBreaks (draw_radio_option cfg nm tt o).1 = 0 := by
  unfold draw_radio_option
  repeat' split
  all_goals rfl

lemma countBreaks_draw_radio_options (cfg : Config) (nm : Option String)
    (tt : String) (os : List RadioOption) :
    countBreaks (draw_radio_options cfg nm tt os).1 = 0 := by
  induction os with
  | nil => rfl
  | cons o os ih =>
    unfold draw_radio_options
    rcases hs : draw_radio_option cfg nm tt o with ⟨evs, err⟩
    have h1 : countBreaks evs = 0 := by
      have h := countBreaks_draw_radio_option cfg nm tt o
      rw [hs] at h
      exact h
    cases err <;> simp [countBreaks_append, h1, ih]

/-- Drawing a field never emits a page-break event. -/
lemma countBreaks_draw_field (cfg : Config) (f : Field) :
    countBreaks (draw_field cfg f).1 = 0 := by
  unfold draw_field
  split
  · unfold draw_text
    repeat' split
    all_goals rfl
  · unfold draw_fillable
    repeat' split
    all_goals rfl
  · unfold draw_checkbox
    repeat' split
    all_goals rfl
  · exact countBreaks_draw_radio_options cfg f.name (f.label.getD "") f.options
  · unfold draw_line
    repeat' split
    all_goals rfl
  · rfl

/-- One iteration emits exactly as many page-break events as it adds to
`page_number`. -/
lemma countBreaks_saveStep (cfg : Config) (pn : Int) (f : Field) :
    (countBreaks (saveStep cfg pn f).1 : Int) = (saveStep cfg pn f).2.1 - pn := by
  have hd := countBreaks_draw_field cfg f
  unfold saveStep
  split <;> simp [countBreaks, List.countP_cons] at hd ⊢ <;> exact hd

/-- The loop emits exactly as many page-break events as it adds to
`page_number`, whether or not it finishes. -/
lemma countBreaks_runFields (cfg : Config) (pn : Int) (fs : List Field) :
    (countBreaks (runFields cfg pn fs).1 : Int) = (runFields cfg pn fs).2.1 - pn := by
  induction fs generalizing pn with
  | nil => simp [runFields, countBreaks_nil]
  | cons f fs ih =>
    have h1 := countBreaks_saveStep cfg pn f
    have h2 := ih (saveStep cfg pn f).2.1
    rw [runFields_cons]
    split
    · simp [countBreaks_append]
      omega
    · simpa using h1

/-- If every row fits under `2 * rows_per_page - 2` and the loop starts on
page 0 or 1, it ends on page at most 1: the check can never fire twice. -/
lemma runFields_pn_ub (cfg : Config) (pn : Int) (fs : List Field)
    (hub : ∀ f ∈ fs, f.row.getD 0 ≤ 2 * cfg.rows_per_page - 2)
    (hpn : pn ≤ 1) : (runFields cfg pn fs).2.1 ≤ 1 := by
  induction fs generalizing pn with
  | nil => simpa [runFields]
  | cons f fs ih =>
    have hrow := hub f (List.mem_cons_self f fs)
    have hstep : (saveStep cfg pn f).2.1 ≤ 1 := by
      unfold saveStep needs_page_break
      split
      · rename_i h
        simp only [decide_eq_true_eq] at h
        simp only
        by_contra hc
        have hpn1 : pn = 1 := by omega
        rw [hpn1] at h
        omega
      · simpa using hpn
    have h2 := ih (saveStep cfg pn f).2.1 (fun g hg => hub g (List.mem_cons_of_mem f hg)) hstep
    rw [runFields_cons]
    split <;> simpa

/-- If the loop finishes and some field's row meets the break threshold for
the starting page, the final page number exceeds the starting one. -/
lemma runFields_pn_lb (cfg : Config) (pn : Int) (fs : List Field) (f : Field)
    (hmem : f ∈ fs) (hrow : (pn + 1) * cfg.rows_per_page ≤ f.row.getD 0)
    (hok : (runFields cfg pn fs).2.2 = none) :
    pn + 1 ≤ (runFields cfg pn fs).2.1 := by
  induction fs generalizing pn with
  | nil => cases hmem
  | cons g gs ih =>
    rw [runFields_cons] at hok ⊢
    by_cases herr : (saveStep cfg pn g).2.2 = none
    · rw [if_pos herr] at hok ⊢
      simp only at hok ⊢
      rcases saveStep_pn cfg pn g with h1 | h1
      · have := runFields_pn_le cfg (saveStep cfg pn g).2.1 gs
        omega
      · rcases List.mem_cons.mp hmem with rfl | hm
        · have := saveStep_breaks cfg pn f hrow
          omega
        · have hrow' : ((saveStep cfg pn g).2.1 + 1) * cfg.rows_per_page ≤ f.row.getD 0 := by
            rw [h1]
            exact hrow
          have := ih (saveStep cfg pn g).2.1 hm hrow' hok
          omega
    · rw [if_neg herr] at hok
      exact absurd hok herr

/-- Splitting the field loop around an error-free prefix. -/
lemma runFields_append_ok (cfg : Config) (pn : Int) (as bs : List Field)
    (h : (runFields cfg pn as).2.2 = none) :
    runFields cfg pn (as ++ bs) =
      ((runFields cfg pn as).1 ++ (runFields cfg (runFields cfg pn as).2.1 bs).1,
       (runFields cfg (runFields cfg pn as).2.1 bs).2.1,
       (runFields cfg (runFields cfg pn as).2.1 bs).2.2) := by
  induction as generalizing pn with
  | nil => simp [runFields]
  | cons g gs ih =>
    by_cases herr : (saveStep cfg pn g).2.2 = none
    · rw [runFields_cons, if_pos herr] at h
      simp only at h
      have hih := ih (saveStep cfg pn g).2.1 h
      simp [runFields_cons, herr, hih, List.append_assoc]
    · rw [runFields_cons, if_neg herr] at h
      exact absurd h herr

/-- A loop iteration that raises stops the loop there. -/
lemma runFields_head_error (cfg : Config) (pn : Int) (f : Field) (fs : List Field)
    (h : (saveStep cfg pn f).2.2 ≠ none) :
    runFields cfg pn (f :: fs) =
      ((saveStep cfg pn f).1, (saveStep cfg pn f).2.1, (saveStep cfg pn f).2.2) := by
  rw [runFields_cons, if_neg h]

/-! ### Claim theorems -/

/-- **C1.** For every field carrying grid coordinates (not both `x` and `y`
present) and every configuration with `rows_per_page ≥ 1`, `_resolve_coords`
returns exactly `x = margin_x + col * column_width`,
`y = page_height - margin_y - (row mod rows_per_page) * row_height`, and
`width = col_span * column_width`, with defaults 50, 50, 30, 120 for the
layout keys, 0 for `col` and `row`, 1 for `col_span`.  The current page
number is not even an argument of `resolve_coords`, so the local row is
taken independently of it.  (For `rows_per_page ≥ 1`, `Int.fmod` is the
ordinary nonnegative remainder `row mod rows_per_page`.) -/
theorem c1_resolve_coords_grid (cfg : Config) (f : CoordSpec)
    (hrpp : 1 ≤ cfg.rows_per_page) (hxy : f.x = none ∨ f.y = none) :
    resolve_coords cfg f =
      some (cfg.layout.margin_x.getD 50 + f.col.getD 0 * cfg.layout.column_width.getD 120,
            cfg.page_height - cfg.layout.margin_y.getD 50 -
              Int.fmod (f.row.getD 0) cfg.rows_per_page * cfg.layout.row_height.getD 30,
            f.col_span.getD 1 * cfg.layout.column_width.getD 120) :=
  resolve_coords_grid_eq cfg f hxy (by omega)

/-- Witness for C1: a field at `row = 7`, `col = 2`, `col_span = 3` on a
612×792 page with an empty layout dict and `rows_per_page = 5` resolves to
`x = 50 + 2*120 = 290`, `y = 792 - 50 - (7 mod 5)*30 = 682`, `width = 360`. -/
theorem c1_resolve_coords_grid_witness :
    resolve_coords ⟨{}, 792, 5⟩ { col := some 2, row := some 7, col_span := some 3 } =
      some (290, 682, 360) := by
  have h := c1_resolve_coords_grid ⟨{}, 792, 5⟩
      { col := some 2, row := some 7, col_span := some 3 }
      (by decide) (Or.inl rfl)
  simpa using h

/-- **C4.** A field or radio option carrying both an explicit `x` and an
explicit `y` resolves to exactly `(x, y, width)` with `width` defaulting to
100, independently of the configuration (layout dict, page height,
`rows_per_page`), of the grid attributes `col`, `row`, `col_span`, and of
the page number (which `resolve_coords` does not even take). -/
theorem c4_resolve_coords_explicit (cfg cfg' : Config) (a b : Int)
    (w c r s c' r' s' : Option Int) :
    resolve_coords cfg ⟨some a, some b, w, c, r, s⟩ = some (a, b, w.getD 100) ∧
    resolve_coords cfg ⟨some a, some b, w, c, r, s⟩ =
      resolve_coords cfg' ⟨some a, some b, w, c', r', s'⟩ :=
  ⟨rfl, rfl⟩

/-- **C7.** For two grid-placed inputs (not both `x` and `y` present) that
agree on `row mod rows_per_page`, on `col` and on `col_span`, resolution
under the same configuration returns the same `(x, y, width)`; together with
C1/C4 (no page-number argument at all) this shows the output depends only on
`(row mod rows_per_page, col, col_span, layout configuration)`. -/
theorem c7_resolve_coords_local_row (cfg : Config) (f g : CoordSpec)
    (hrpp : 1 ≤ cfg.rows_per_page)
    (hf : f.x = none ∨ f.y = none) (hg : g.x = none ∨ g.y = none)
    (hrow : Int.fmod (f.row.getD 0) cfg.rows_per_page =
            Int.fmod (g.row.getD 0) cfg.rows_per_page)
    (hcol : f.col.getD 0 = g.col.getD 0)
    (hspan : f.col_span.getD 1 = g.col_span.getD 1) :
    resolve_coords cfg f = resolve_coords cfg g := by
  rw [resolve_coords_grid_eq cfg f hf (by omega),
      resolve_coords_grid_eq cfg g hg (by omega), hrow, hcol, hspan]

/-- Witness for C7: rows 2 and 12 agree modulo `rows_per_page = 5`, so with
equal `col` and `col_span` the two fields resolve identically. -/
theorem c7_resolve_coords_local_row_witness :
    resolve_coords ⟨{}, 792, 5⟩ { col := some 1, row := some 2, col_span := some 2 } =
      resolve_coords ⟨{}, 792, 5⟩ { col := some 1, row := some 12, col_span := some 2 } :=
  c7_resolve_coords_local_row ⟨{}, 792, 5⟩
    { col := some 1, row := some 2, col_span := some 2 }
    { col := some 1, row := some 12, col_span := some 2 }
    (by decide) (Or.inl rfl) (Or.inl rfl) (by decide) rfl rfl

/-- **C2.** In each iteration of the field loop, the page-break check uses
`field.get("row", 0)` (any field, also one with explicit `x`/`y`), runs
before the field is drawn (the break event precedes all drawing events),
and `page_number` advances by exactly one exactly when
`row ≥ (page_number + 1) * rows_per_page`; being a single conditional, the
advance is never more than one per field, however large `row` is. -/
theorem c2_page_break_per_field (cfg : Config) (pn : Int) (f : Field) :
    ((saveStep cfg pn f).2.1 = pn + 1 ↔ (pn + 1) * cfg.rows_per_page ≤ f.row.getD 0) ∧
    ((saveStep cfg pn f).2.1 = pn ↔ ¬ (pn + 1) * cfg.rows_per_page ≤ f.row.getD 0) ∧
    (saveStep cfg pn f).1 =
      (if (pn + 1) * cfg.rows_per_page ≤ f.row.getD 0
        then [Event.pageBreak (pn + 1)] else []) ++ (draw_field cfg f).1 ∧
    (saveStep cfg pn f).2.1 - pn ≤ 1 := by
  unfold saveStep needs_page_break
  by_cases h : (pn + 1) * cfg.rows_per_page ≤ f.row.getD 0 <;>
    simp [h]

/-- **C10.** A field with no `row` key and no explicit coordinates does not
make the pass fail on that account: the loop treats it as `row = 0`, so (for
`rows_per_page ≥ 1` and the page number reachable in a pass, `≥ 0`) it never
triggers a page break, its loop iteration is exactly its drawing outcome,
and its coordinates resolve (successfully) to local row 0, the top band
`y = page_height - margin_y` of the current page. -/
theorem c10_missing_row_defaults (cfg : Config) (pn : Int) (f : Field)
    (hrpp : 1 ≤ cfg.rows_per_page) (hpn : 0 ≤ pn)
    (hrow : f.row = none) (hx : f.x = none) (_hy : f.y = none) :
    needs_page_break cfg.rows_per_page pn (f.row.getD 0) = false ∧
    saveStep cfg pn f = ((draw_field cfg f).1, pn, (draw_field cfg f).2) ∧
    resolve_coords cfg f.coords =
      some (cfg.layout.margin_x.getD 50 + f.col.getD 0 * cfg.layout.column_width.getD 120,
            cfg.page_height - cfg.layout.margin_y.getD 50,
            f.col_span.getD 1 * cfg.layout.column_width.getD 120) := by
  have hpos : 0 < (pn + 1) * cfg.rows_per_page := by positivity
  have hnb : needs_page_break cfg.rows_per_page pn (f.row.getD 0) = false := by
    simp [needs_page_break, hrow]; omega
  refine ⟨hnb, by simp [saveStep, hnb], ?_⟩
  have h := resolve_coords_grid_eq cfg f.coords
      (Or.inl (show f.coords.x = none from hx)) (by omega)
  rw [h]
  simp [Field.coords, hrow, Int.zero_fmod]

/-- Witness for C10: a `"text"` field with no keys except its type, on a
792-high page with empty layout and `rows_per_page = 5`, draws at the top
band `(50, 742)` without page break, page change, or error. -/
theorem c10_missing_row_defaults_witness :
    saveStep ⟨{}, 792, 5⟩ 0 { ftype := some "text" } =
      ([Event.drawText 50 742 10 ""], 0, none) := by
  have h := c10_missing_row_defaults ⟨{}, 792, 5⟩ 0 { ftype := some "text" }
      (by decide) (by decide) rfl rfl rfl
  rw [h.2.1]
  rfl

/-- **C9, counterexample.** The claim asserts the missing-`name` failure for
every radio field "regardless of the content of its options list", but
`_draw_radio` only subscripts `field["name"]` inside the per-option loop: a
nameless radio field with an empty options list draws nothing and raises
nothing, and a whole pass over it completes and finalizes normally. -/
theorem c9_counterexample :
    draw_field ⟨{}, 792, 5⟩ { ftype := some "radio" } = ([], none) ∧
    save ⟨{}, 792, 5⟩ [{ ftype := some "radio" }] =
      ([Event.showPage, Event.saveDoc], none) := by
  decide

/-- **C9, amended.** With coordinates resolvable (`rows_per_page ≥ 1`), a
fillable or checkbox field lacking `name` fails with `KeyError "name"`
exactly when it is drawn, and so does a radio field lacking `name` whose
options list is non-empty (the error fires at its first option, whatever
the option contains); a nameless radio with no options does not fail. -/
theorem c9_missing_name (cfg : Config) (f : Field)
    (hrpp : 1 ≤ cfg.rows_per_page) (hname : f.name = none) :
    ((f.ftype = some "fillable" ∨ f.ftype = some "checkbox") →
        draw_field cfg f = ([], some (RenderError.keyError "name"))) ∧
    (f.ftype = some "radio" → f.options ≠ [] →
        draw_field cfg f = ([], some (RenderError.keyError "name"))) := by
  have h0 : cfg.rows_per_page ≠ 0 := by omega
  constructor
  · rintro (hft | hft) <;>
    · obtain ⟨⟨x, y, w⟩, ht⟩ :=
        Option.isSome_iff_exists.mp (resolve_coords_isSome cfg f.coords h0)
      simp [draw_field, hft, draw_fillable, draw_checkbox, ht, hname]
  · intro hft hopts
    cases hO : f.options with
    | nil => exact absurd hO hopts
    | cons o os =>
      obtain ⟨⟨x, y, w⟩, ht⟩ :=
        Option.isSome_iff_exists.mp (resolve_coords_isSome cfg o.coords h0)
      simp [draw_field, hft, draw_radio, hO, draw_radio_options,
            draw_radio_option, ht, hname]

/-- Witness for C9 (amended): a nameless fillable field fails with
`KeyError "name"` when drawn. -/
theorem c9_missing_name_witness :
    draw_field ⟨{}, 792, 5⟩ { ftype := some "fillable" } =
      ([], some (RenderError.keyError "name")) :=
  (c9_missing_name ⟨{}, 792, 5⟩ { ftype := some "fillable" }
    (by decide) rfl).1 (Or.inl rfl)

/-- **C3 (code bug).** `render` computes `rows_per_page` without any
validation, and a non-positive value does **not** abort the pass before
drawing:
* `margin_y = 400`, `row_height = 30` on a 792-high page give
  `rows_per_page = -1`; a grid text field at row 0 is then rendered to
  completion (after a spurious page break) with no error at all;
* `margin_y = 390` gives `rows_per_page = 0`; the pass then emits a page
  break (canvas output) and only afterwards dies with `ZeroDivisionError`
  at the grid field's `row % rows_per_page`;
* with `rows_per_page = 0` an explicit-coordinate field is drawn and the
  pass completes normally, so no configuration error is ever reported. -/
theorem c3_no_rows_per_page_validation :
    compute_rows_per_page 792 { margin_y := some 400, row_height := some 30 } = some (-1) ∧
    save ⟨{ margin_y := some 400, row_height := some 30 }, 792, -1⟩
        [{ ftype := some "text", row := some 0, text := some "field" }] =
      ([Event.pageBreak 1, Event.drawText 50 392 10 "field",
        Event.showPage, Event.saveDoc], none) ∧
    compute_rows_per_page 792 { margin_y := some 390, row_height := some 30 } = some 0 ∧
    save ⟨{ margin_y := some 390, row_height := some 30 }, 792, 0⟩
        [{ ftype := some "text", row := some 0, text := some "field" }] =
      ([Event.pageBreak 1], some RenderError.zeroDivision) ∧
    save ⟨{ margin_y := some 390, row_height := some 30 }, 792, 0⟩
        [{ ftype := some "text", x := some 50, y := some 700, text := some "field" }] =
      ([Event.pageBreak 1, Event.drawText 50 700 10 "field",
        Event.showPage, Event.saveDoc], none) := by
  decide

/-- **C5.** `_draw_field` dispatches each recognized `"type"` to exactly one
drawing routine; an unrecognized type (including a missing one) raises
`NotImplementedError`, the pass stops at that field, and the trace and
outcome are the same whatever fields follow — none of them is drawn. -/
theorem c5_unknown_kind_aborts (cfg : Config) (pn : Int) (pre post : List Field)
    (f : Field)
    (h1 : f.ftype ≠ some "text") (h2 : f.ftype ≠ some "fillable")
    (h3 : f.ftype ≠ some "checkbox") (h4 : f.ftype ≠ some "radio")
    (h5 : f.ftype ≠ some "line")
    (hpre : (runFields cfg pn pre).2.2 = none) :
    draw_field cfg f = ([], some (RenderError.unsupportedType f.ftype)) ∧
    (runFields cfg pn (pre ++ f :: post)).2.2 =
      some (RenderError.unsupportedType f.ftype) ∧
    runFields cfg pn (pre ++ f :: post) = runFields cfg pn (pre ++ [f]) ∧
    (∀ g : Field,
      (g.ftype = some "text" → draw_field cfg g = draw_text cfg g) ∧
      (g.ftype = some "fillable" → draw_field cfg g = draw_fillable cfg g) ∧
      (g.ftype = some "checkbox" → draw_field cfg g = draw_checkbox cfg g) ∧
      (g.ftype = some "radio" → draw_field cfg g = draw_radio cfg g) ∧
      (g.ftype = some "line" → draw_field cfg g = draw_line cfg g)) := by
  have hdf : draw_field cfg f = ([], some (RenderError.unsupportedType f.ftype)) := by
    unfold draw_field
    split <;> simp_all
  have hstep : ∀ q : Int,
      (saveStep cfg q f).2.2 = some (RenderError.unsupportedType f.ftype) := by
    intro q
    unfold saveStep
    split <;> simp [hdf]
  have hne : ∀ q : Int, (saveStep cfg q f).2.2 ≠ none := by
    intro q
    rw [hstep q]
    simp
  refine ⟨hdf, ?_, ?_, ?_⟩
  · rw [runFields_append_ok cfg pn pre (f :: post) hpre]
    simp only
    rw [runFields_head_error cfg _ f post (hne _)]
    exact hstep _
  · rw [runFields_append_ok cfg pn pre (f :: post) hpre,
        runFields_append_ok cfg pn pre [f] hpre,
        runFields_head_error cfg _ f post (hne _),
        runFields_head_error cfg _ f [] (hne _)]
  · intro g
    refine ⟨?_, ?_, ?_, ?_, ?_⟩ <;> intro hg <;> simp [draw_field, hg]

/-- Witness for C5: a field of type `"bogus"` between two text fields makes
the pass identical to the pass with the trailing text field removed: the
field after the unknown kind is never drawn. -/
theorem c5_unknown_kind_aborts_witness :
    runFields ⟨{}, 792, 5⟩ 0
        [{ ftype := some "text" }, { ftype := some "bogus" },
         { ftype := some "text", row := some 1 }] =
      runFields ⟨{}, 792, 5⟩ 0 [{ ftype := some "text" }, { ftype := some "bogus" }] :=
  (c5_unknown_kind_aborts ⟨{}, 792, 5⟩ 0 [{ ftype := some "text" }]
    [{ ftype := some "text", row := some 1 }] { ftype := some "bogus" }
    (by decide) (by decide) (by decide) (by decide) (by decide) (by decide)).2.2.1

/-- **C6.** A pass that completes ends with exactly one trailing
page-completion call followed by the finalizing `save()` call, after
whatever the field loop emitted; the empty field list yields exactly the
finalized single page `[showPage, saveDoc]`. -/
theorem c6_trailing_finalize (cfg : Config) (fields : List Field)
    (h : (save cfg fields).2 = none) :
    save cfg fields =
      ((runFields cfg 0 fields).1 ++ [Event.showPage, Event.saveDoc], none) ∧
    save cfg [] = ([Event.showPage, Event.saveDoc], none) := by
  constructor
  · unfold save at h ⊢
    rcases hr : runFields cfg 0 fields with ⟨evs, pnF, err⟩
    cases err with
    | some e =>
      rw [hr] at h
      exact Option.noConfusion h
    | none => rfl
  · rfl

/-- Witness for C6: a one-field pass completes and its trace is the loop
trace followed by the trailing `showPage` and the finalizing `save`. -/
theorem c6_trailing_finalize_witness :
    save ⟨{}, 792, 5⟩ [{ ftype := some "text" }] =
      ((runFields ⟨{}, 792, 5⟩ 0 [{ ftype := some "text" }]).1 ++
        [Event.showPage, Event.saveDoc], none) :=
  (c6_trailing_finalize ⟨{}, 792, 5⟩ [{ ftype := some "text" }] (by decide)).1

/-- **C8, counterexample.** With `rows_per_page = 1` (reachable, e.g. from
`row_height = 692` on a 792-high page), a field list spanning exactly
`2 * rows_per_page - 1 = 1` rows — all rows in the range `0 .. 2*1-2 = 0`,
trivially in non-decreasing order — completes with **zero** page-break
events, not one as the claim states. -/
theorem c8_counterexample :
    compute_rows_per_page 792 { row_height := some 692 } = some 1 ∧
    (runFields ⟨{ row_height := some 692 }, 792, 1⟩ 0
        [{ ftype := some "text", row := some 0 }]).2.2 = none ∧
    countBreaks (runFields ⟨{ row_height := some 692 }, 792, 1⟩ 0
        [{ ftype := some "text", row := some 0 }]).1 = 0 := by
  decide

/-- **C8, amended.** For `rows_per_page ≥ 2`, a field list presented in
non-decreasing row order whose rows occupy the range
`0 .. 2*rows_per_page - 2` (both extremes attained) and whose pass
completes produces exactly one mid-pass page-break event.  (The original
claim fails at `rows_per_page = 1`, where the range collapses to `{0}` and
no break ever fires.) -/
theorem c8_one_page_break (cfg : Config) (fields : List Field)
    (hrpp : 2 ≤ cfg.rows_per_page)
    (_hchain : List.Chain' (· ≤ ·) (fields.map fun f => f.row.getD 0))
    (_hlb : ∀ f ∈ fields, 0 ≤ f.row.getD 0)
    (hub : ∀ f ∈ fields, f.row.getD 0 ≤ 2 * cfg.rows_per_page - 2)
    (hmin : ∃ f ∈ fields, f.row.getD 0 = 0)
    (hmax : ∃ f ∈ fields, f.row.getD 0 = 2 * cfg.rows_per_page - 2)
    (hok : (runFields cfg 0 fields).2.2 = none) :
    countBreaks (runFields cfg 0 fields).1 = 1 := by
  obtain ⟨f, hf, hfr⟩ := hmax
  have hub' := runFields_pn_ub cfg 0 fields hub (by omega)
  have hrow : (0 + 1) * cfg.rows_per_page ≤ f.row.getD 0 := by
    rw [hfr]
    omega
  have hlb' := runFields_pn_lb cfg 0 fields f hf hrow hok
  have hc := countBreaks_runFields cfg 0 fields
  omega

/-- Witness for C8 (amended): `rows_per_page = 2`, text fields at rows 0 and
2 (`= 2*2-2`) in non-decreasing order; the completed pass emits exactly one
page-break event. -/
theorem c8_one_page_break_witness :
    countBreaks (runFields ⟨{ row_height := some 346 }, 792, 2⟩ 0
        [{ ftype := some "text", row := some 0 },
         { ftype := some "text", row := some 2 }]).1 = 1 :=
  c8_one_page_break ⟨{ row_height := some 346 }, 792, 2⟩
    [{ ftype := some "text", row := some 0 }, { ftype := some "text", row := some 2 }]
    (by decide) (by simp [List.chain'_cons]) (by decide) (by decide) (by decide)
    (by decide) (by decide)

end Erosion
